import Mathlib

/-!
Shallow embedding of src/src/android.rs (raw-gl-context, Android EGL backend).

The EGL driver is modelled as an oracle structure `Egl` giving the value each
driver entry point returns.  Every embedded function returns, alongside its
Rust result, the ordered list of driver calls and log events it performs
(`List Call`).  `GlContext.create` returns
`Option (Except GlError GlContext × List Call)`, where `none` models a Rust
panic (the out-of-bounds slice of the 64-entry config array) and the traces of
early `return Err(..)` paths include the implicit `Drop` of the local `this`
value, exactly as in Rust.
-/

/-- Modelled from the spec: the requested-API enum of the crate root
(`crate::Api`), whose definition is not part of the given source slice.
Spec: `api ∈ {GL, GLES}`. -/
inductive Api where
  | Gl
  | Gles
  deriving DecidableEq, Repr

/-- Modelled from the spec: the error enum of the crate root (`crate::GlError`).
Spec section 7 lists the three kinds used by this backend. -/
inductive GlError where
  | ApiNotSupported
  | InvalidWindowHandle
  | CreationFailed
  deriving DecidableEq, Repr

/-- Modelled from the spec: the window-handle value of the external
`raw_window_handle` crate.  android.rs matches only the `AndroidNdk` variant
and treats every other variant identically, so the rest are collapsed into
`Other`.  `a_native_window` is the raw pointer as a number; 0 is null. -/
inductive RawWindowHandle where
  | AndroidNdk (a_native_window : Nat)
  | Other
  deriving DecidableEq, Repr

/-- The `struct GlContext` of android.rs: EGLDisplay, EGLContext and EGLSurface
handles, modelled as numbers.  The EGL sentinels `EGL_NO_DISPLAY`,
`EGL_NO_CONTEXT`, `EGL_NO_SURFACE` are all the null pointer, i.e. 0. -/
structure GlContext where
  display : Nat
  context : Nat
  surface : Nat
  deriving DecidableEq, Repr

/-- Modelled from the spec: the crate-root context wrapper.  `conf.share` holds
a reference to one and android.rs reads `x.context.context` through it. -/
structure PublicGlContext where
  context : GlContext
  deriving DecidableEq, Repr

/-- Modelled from the spec: the crate-root `GlConfig` (only the fields
android.rs reads): bit depths, optional sample count, requested API,
(major, minor) version and optional share context. -/
structure GlConfig where
  version : Nat × Nat
  red_bits : Nat
  blue_bits : Nat
  green_bits : Nat
  alpha_bits : Nat
  depth_bits : Nat
  stencil_bits : Nat
  samples : Option Nat
  api : Api
  share : Option PublicGlContext
  deriving DecidableEq, Repr

/-! EGL constants from `glutin_egl_sys` (values of the Khronos EGL headers). -/

def EGL_NO_DISPLAY : Nat := 0
def EGL_NO_CONTEXT : Nat := 0
def EGL_NO_SURFACE : Nat := 0
def EGL_SURFACE_TYPE : Nat := 0x3033
def EGL_WINDOW_BIT : Nat := 0x0004
def EGL_RENDERABLE_TYPE : Nat := 0x3040
def EGL_OPENGL_ES2_BIT : Nat := 0x0004
def EGL_CONFORMANT : Nat := 0x3042
def EGL_RED_SIZE : Nat := 0x3024
def EGL_GREEN_SIZE : Nat := 0x3023
def EGL_BLUE_SIZE : Nat := 0x3022
def EGL_ALPHA_SIZE : Nat := 0x3021
def EGL_DEPTH_SIZE : Nat := 0x3025
def EGL_STENCIL_SIZE : Nat := 0x3026
def EGL_SAMPLE_BUFFERS : Nat := 0x3032
def EGL_SAMPLES : Nat := 0x3031
def EGL_NONE : Nat := 0x3038
def EGL_CONTEXT_MAJOR_VERSION : Nat := 0x3098
def EGL_CONTEXT_MINOR_VERSION : Nat := 0x30FB

/-- Oracle for the EGL driver: the value each driver entry point returns.
Entry points that android.rs calls with varying arguments are functions of
those arguments; entry points called with fixed arguments during one
construction are plain values.  `ChooseConfigList` is what the driver writes
into the caller-supplied 64-entry array and `ChooseConfigNum` what it writes
into `num_config` (an ill-behaved driver may report more than 64). -/
structure Egl where
  GetDisplay : Nat
  InitOk : Bool
  ChooseConfigOk : Bool
  ChooseConfigList : List Nat
  ChooseConfigNum : Nat
  CreateWindowSurface : Nat → Nat → Nat → Nat
  CreateContext : Nat → Nat → Nat → List Nat → Nat
  MakeCurrentOk : Nat → Nat → Nat → Nat → Bool
  SwapBuffersOk : Nat → Nat → Bool
  GetProcAddress : String → Nat
  GetError : Nat

/-- One driver call or log event, with the arguments of the call site. -/
inductive Call where
  | GetDisplay
  | InitDisplay (dpy : Nat)
  | ChooseConfig (dpy : Nat) (attrib_list : List Nat) (config_size : Nat)
  | CreateWindowSurface (dpy cfg window : Nat)
  | CreateContext (dpy cfg share_context : Nat) (attrib_list : List Nat)
  | MakeCurrent (dpy draw read ctx : Nat)
  | SwapBuffers (dpy surf : Nat)
  | GetProcAddress (symbol : String)
  | DestroySurface (dpy surf : Nat)
  | DestroyContext (dpy ctx : Nat)
  | Terminate (dpy : Nat)
  | GetError
  | LogError (msg : String)
  | LogInfo (msg : String)
  | LogDebug (msg : String)
  deriving DecidableEq, Repr

/-- The `attribs` array of lines 39-53 of android.rs (the commented-out
DOUBLEBUFFER entry is absent there too). -/
def attribs (conf : GlConfig) : List Nat :=
  [EGL_SURFACE_TYPE, EGL_WINDOW_BIT,
   EGL_RENDERABLE_TYPE, EGL_OPENGL_ES2_BIT,
   EGL_CONFORMANT, EGL_OPENGL_ES2_BIT,
   EGL_RED_SIZE, conf.red_bits,
   EGL_GREEN_SIZE, conf.green_bits,
   EGL_BLUE_SIZE, conf.blue_bits,
   EGL_ALPHA_SIZE, conf.alpha_bits,
   EGL_DEPTH_SIZE, conf.depth_bits,
   EGL_STENCIL_SIZE, conf.stencil_bits,
   EGL_SAMPLE_BUFFERS, if conf.samples.isSome then 1 else 0,
   EGL_SAMPLES, conf.samples.getD 0,
   EGL_NONE]

/-- The `ctx_attribs` array of lines 136-141 of android.rs. -/
def ctx_attribs (conf : GlConfig) : List Nat :=
  [EGL_CONTEXT_MAJOR_VERSION, conf.version.1,
   EGL_CONTEXT_MINOR_VERSION, conf.version.2,
   EGL_NONE]

/-- The `shared_context` of lines 143-146 of android.rs:
`conf.share.map(|x| x.context.context).unwrap_or(egl::NO_CONTEXT)`. -/
def shared_context (conf : GlConfig) : Nat :=
  (conf.share.map fun x => x.context.context).getD EGL_NO_CONTEXT

/-- The stack array `config: [EGLConfig; 64]` after `eglChooseConfig`: it is
null-initialised and the driver overwrites a prefix with its candidate list;
the array always has exactly 64 entries. -/
def configArray (egl : Egl) : List Nat :=
  (egl.ChooseConfigList ++ List.replicate 64 0).take 64

/-- The slice `config[..num_config as usize]` of line 100 of android.rs,
as the list it denotes when in bounds. -/
def candidates (egl : Egl) : List Nat :=
  (configArray egl).take egl.ChooseConfigNum

/-- Method `make_current` (lines 159-165): one eglMakeCurrent call binding
(surface, surface, context); on driver failure only eglGetError and a log.
The state component records that `&self` is returned unchanged. -/
def GlContext.make_current (egl : Egl) (self : GlContext) : GlContext × List Call :=
  (self,
    if egl.MakeCurrentOk self.display self.surface self.surface self.context then
      [Call.MakeCurrent self.display self.surface self.surface self.context]
    else
      [Call.MakeCurrent self.display self.surface self.surface self.context,
       Call.GetError, Call.LogError "eglMakeCurrent failed in make_current"])

/-- Method `make_not_current` (lines 167-176): one eglMakeCurrent call binding
(NO_SURFACE, NO_SURFACE, NO_CONTEXT); on driver failure only eglGetError and a
log. -/
def GlContext.make_not_current (egl : Egl) (self : GlContext) : GlContext × List Call :=
  (self,
    if egl.MakeCurrentOk self.display EGL_NO_SURFACE EGL_NO_SURFACE EGL_NO_CONTEXT then
      [Call.MakeCurrent self.display EGL_NO_SURFACE EGL_NO_SURFACE EGL_NO_CONTEXT]
    else
      [Call.MakeCurrent self.display EGL_NO_SURFACE EGL_NO_SURFACE EGL_NO_CONTEXT,
       Call.GetError, Call.LogError "eglMakeCurrent failed in make_not_current"])

/-- Method `swap_buffers` (lines 185-203): one eglSwapBuffers call; on driver
failure only eglGetError and a log. -/
def GlContext.swap_buffers (egl : Egl) (self : GlContext) : GlContext × List Call :=
  (self,
    if egl.SwapBuffersOk self.display self.surface then
      [Call.SwapBuffers self.display self.surface]
    else
      [Call.SwapBuffers self.display self.surface,
       Call.GetError, Call.LogError "eglSwapBuffers failed in swap_buffer"])

/-- Method `get_proc_address` (lines 178-183): `CString::new(symbol).unwrap()`
panics (`none`) exactly when the symbol has an interior NUL byte; otherwise the
driver query result is returned, which may be 0 (null) for unknown symbols. -/
def GlContext.get_proc_address (egl : Egl) (self : GlContext) (symbol : String) :
    Option (GlContext × Nat × List Call) :=
  if (Char.ofNat 0) ∈ symbol.toList then none
  else some (self, egl.GetProcAddress symbol, [Call.GetProcAddress symbol])

/-- The `Drop` impl (lines 206-230): driver calls only when the display is not
NO_DISPLAY, and then `make_not_current`, destroy the surface if live (resetting
the field to NO_SURFACE), destroy the context if live, terminate the display. -/
def GlContext.drop (egl : Egl) (self : GlContext) : GlContext × List Call :=
  if self.display = EGL_NO_DISPLAY then
    (self, [Call.LogInfo "Destroying android GlContext"])
  else
    ((⟨self.display, self.context, EGL_NO_SURFACE⟩ : GlContext),
      [Call.LogInfo "Destroying android GlContext"]
      ++ (GlContext.make_not_current egl self).2
      ++ (if self.surface = EGL_NO_SURFACE then []
          else [Call.LogDebug "eglDestroySurface",
                Call.DestroySurface self.display self.surface])
      ++ (if self.context = EGL_NO_CONTEXT then []
          else [Call.LogDebug "eglDestroyContext",
                Call.DestroyContext self.display self.context])
      ++ [Call.LogDebug "eglTerminate", Call.Terminate self.display])

/-- The retry loop of lines 102-133 of android.rs: iterate candidate configs,
attempt a window surface per candidate; skip (with eglGetError and a log) those
for which the driver returns NO_SURFACE; stop at the first success, or fail
with a log when the list is exhausted. -/
def surfaceLoop (egl : Egl) (dpy window : Nat) :
    List Nat → List Call → List Call ⊕ (Nat × Nat × List Call)
  | [], tr => Sum.inl (tr ++ [Call.LogError "all configs failed"])
  | cfg :: rest, tr =>
      if egl.CreateWindowSurface dpy cfg window = 0 then
        surfaceLoop egl dpy window rest
          (tr ++ [Call.CreateWindowSurface dpy cfg window,
                  Call.GetError, Call.LogError "eglCreateWindowSurface failed"])
      else
        Sum.inr (cfg, egl.CreateWindowSurface dpy cfg window,
          tr ++ [Call.CreateWindowSurface dpy cfg window])

/-- Function `GlContext::create` (lines 17-157 of android.rs).  `none` models
the panic of the slice `config[..num_config as usize]` when the driver reported
more than the 64-entry capacity.  Early `return Err(..)` after `this` exists
drops `this`, so those traces end with the corresponding drop trace. -/
def GlContext.create (egl : Egl) (parent : RawWindowHandle) (conf : GlConfig) :
    Option (Except GlError GlContext × List Call) :=
  match conf.api with
  | Api.Gl => some (Except.error GlError.ApiNotSupported, [])
  | Api.Gles =>
  match parent with
  | RawWindowHandle.Other =>
      some (Except.error GlError.InvalidWindowHandle,
        [Call.LogError "invalid window handle"])
  | RawWindowHandle.AndroidNdk a_native_window =>
  if a_native_window = 0 then
    some (Except.error GlError.InvalidWindowHandle,
      [Call.LogError "window handle is null"])
  else
    let window := a_native_window
    let dpy := egl.GetDisplay
    if dpy = EGL_NO_DISPLAY then
      some (Except.error GlError.CreationFailed,
        [Call.GetDisplay, Call.LogError "eglGetDisplay return NO_DISPLAY"]
        ++ (GlContext.drop egl ⟨EGL_NO_DISPLAY, EGL_NO_CONTEXT, EGL_NO_SURFACE⟩).2)
    else if egl.InitOk = false then
      some (Except.error GlError.CreationFailed,
        [Call.GetDisplay, Call.InitDisplay dpy,
         Call.GetError, Call.LogError "eglInitialize failed"]
        ++ (GlContext.drop egl ⟨dpy, EGL_NO_CONTEXT, EGL_NO_SURFACE⟩).2)
    else
      let tr2 := [Call.GetDisplay, Call.InitDisplay dpy,
        Call.LogInfo "initialized EGL",
        Call.ChooseConfig dpy (attribs conf) 64]
      if egl.ChooseConfigOk = false then
        some (Except.error GlError.CreationFailed,
          tr2 ++ [Call.GetError, Call.LogError "eglChooseConfig failed"]
          ++ (GlContext.drop egl ⟨dpy, EGL_NO_CONTEXT, EGL_NO_SURFACE⟩).2)
      else if egl.ChooseConfigNum = 0 then
        some (Except.error GlError.CreationFailed,
          tr2 ++ [Call.LogError "eglChooseConfig returned 0 configs"]
          ++ (GlContext.drop egl ⟨dpy, EGL_NO_CONTEXT, EGL_NO_SURFACE⟩).2)
      else if 64 < egl.ChooseConfigNum then
        none
      else
        match surfaceLoop egl dpy window (candidates egl)
            (tr2 ++ [Call.LogInfo "eglChooseConfig returned configs"]) with
        | Sum.inl trFail =>
            some (Except.error GlError.CreationFailed,
              trFail ++ (GlContext.drop egl ⟨dpy, EGL_NO_CONTEXT, EGL_NO_SURFACE⟩).2)
        | Sum.inr (cfg, surf, tr4) =>
            let ctx := egl.CreateContext dpy cfg (shared_context conf) (ctx_attribs conf)
            let tr5 := tr4 ++ [Call.CreateContext dpy cfg (shared_context conf) (ctx_attribs conf)]
            if ctx = EGL_NO_CONTEXT then
              some (Except.error GlError.CreationFailed,
                tr5 ++ [Call.GetError, Call.LogError "eglCreateContext failed"]
                ++ (GlContext.drop egl ⟨dpy, EGL_NO_CONTEXT, surf⟩).2)
            else
              some (Except.ok ⟨dpy, ctx, surf⟩,
                tr5 ++ (GlContext.make_current egl ⟨dpy, ctx, surf⟩).2)

/-! Trace analysis helpers used to state the claims. -/

/-- Predicate of driver calls: every event except the log events. -/
def Call.isDriver : Call → Bool
  | Call.LogError _ => false
  | Call.LogInfo _ => false
  | Call.LogDebug _ => false
  | _ => true

/-- Driver calls of a trace, log events removed. -/
def driverCalls (tr : List Call) : List Call :=
  tr.filter Call.isDriver

/-- Configs handed to eglCreateWindowSurface, in call order. -/
def surfaceAttempts (tr : List Call) : List Nat :=
  tr.filterMap fun c => match c with
    | Call.CreateWindowSurface _ cfg _ => some cfg
    | _ => none

/-- Configs handed to eglCreateContext, in call order. -/
def contextAttempts (tr : List Call) : List Nat :=
  tr.filterMap fun c => match c with
    | Call.CreateContext _ cfg _ _ => some cfg
    | _ => none

/-- Surfaces the driver actually produced (non-null results of the
eglCreateWindowSurface calls in the trace). -/
def createdSurfaces (egl : Egl) (tr : List Call) : List Nat :=
  tr.filterMap fun c => match c with
    | Call.CreateWindowSurface dpy cfg w =>
        if egl.CreateWindowSurface dpy cfg w = 0 then none
        else some (egl.CreateWindowSurface dpy cfg w)
    | _ => none

/-- Surfaces handed to eglDestroySurface. -/
def destroyedSurfaces (tr : List Call) : List Nat :=
  tr.filterMap fun c => match c with
    | Call.DestroySurface _ s => some s
    | _ => none

/-- Surfaces created by the trace and never destroyed in it. -/
def liveSurfaces (egl : Egl) (tr : List Call) : List Nat :=
  (createdSurfaces egl tr).filter fun s => !((destroyedSurfaces tr).contains s)

/-- Contexts the driver actually produced (non-null results of the
eglCreateContext calls in the trace). -/
def createdContexts (egl : Egl) (tr : List Call) : List Nat :=
  tr.filterMap fun c => match c with
    | Call.CreateContext dpy cfg sh al =>
        if egl.CreateContext dpy cfg sh al = 0 then none
        else some (egl.CreateContext dpy cfg sh al)
    | _ => none

/-- Contexts handed to eglDestroyContext. -/
def destroyedContexts (tr : List Call) : List Nat :=
  tr.filterMap fun c => match c with
    | Call.DestroyContext _ c0 => some c0
    | _ => none

/-- Contexts created by the trace and never destroyed in it. -/
def liveContexts (egl : Egl) (tr : List Call) : List Nat :=
  (createdContexts egl tr).filter fun c => !((destroyedContexts tr).contains c)

/-- Predicate of the four teardown operations: the unbinding eglMakeCurrent
(all three bound handles the null sentinel), eglDestroySurface,
eglDestroyContext, eglTerminate. -/
def Call.isTeardown : Call → Bool
  | Call.MakeCurrent _ draw read ctx => draw == 0 && read == 0 && ctx == 0
  | Call.DestroySurface _ _ => true
  | Call.DestroyContext _ _ => true
  | Call.Terminate _ => true
  | _ => false

/-- Teardown operations of a trace, in order. -/
def teardownCalls (tr : List Call) : List Call :=
  tr.filter Call.isTeardown

/-- Trace of a run of failed surface-bind attempts: per failed candidate one
eglCreateWindowSurface call, the eglGetError of the diagnostic, and the log. -/
def failTrace (dpy w : Nat) : List Nat → List Call
  | [] => []
  | cfg :: rest =>
      Call.CreateWindowSurface dpy cfg w :: Call.GetError ::
        Call.LogError "eglCreateWindowSurface failed" :: failTrace dpy w rest

/-- The first candidate config whose surface bind the driver accepts. -/
def firstWorkingConfig (egl : Egl) (w : Nat) : Option Nat :=
  (candidates egl).find? fun cfg => !(egl.CreateWindowSurface egl.GetDisplay cfg w == 0)

/-- Characterization of the retry loop: it fails after visiting every candidate
when all binds fail, and otherwise stops at the first candidate whose bind
succeeds, its trace recording the failed prefix and the successful attempt. -/
theorem surfaceLoop_eq (egl : Egl) (dpy w : Nat) :
    ∀ (cands : List Nat) (tr : List Call),
      surfaceLoop egl dpy w cands tr =
        match cands.dropWhile (fun cfg => egl.CreateWindowSurface dpy cfg w == 0) with
        | [] => Sum.inl (tr ++ failTrace dpy w cands ++ [Call.LogError "all configs failed"])
        | cfg :: _ =>
            Sum.inr (cfg, egl.CreateWindowSurface dpy cfg w,
              tr ++ failTrace dpy w
                  (cands.takeWhile (fun cfg => egl.CreateWindowSurface dpy cfg w == 0))
                ++ [Call.CreateWindowSurface dpy cfg w]) := by
  intro cands
  induction cands with
  | nil => intro tr; simp [surfaceLoop, failTrace]
  | cons cfg rest ih =>
      intro tr
      by_cases h : egl.CreateWindowSurface dpy cfg w = 0
      · simp only [surfaceLoop, h, if_pos rfl, List.dropWhile_cons, List.takeWhile_cons,
          h.symm ▸ (beq_self_eq_true (0 : Nat)), ih]
        simp [failTrace, h]
      · simp [surfaceLoop, h, List.dropWhile_cons, List.takeWhile_cons, failTrace]

/-! Small list lemmas for the retry-loop analysis. -/

theorem dropWhile_all {α : Type} (p : α → Bool) :
    ∀ l : List α, (∀ x ∈ l, p x = true) → l.dropWhile p = [] := by
  intro l
  induction l with
  | nil => intro _; rfl
  | cons a l ih =>
      intro h
      have ha := h a (List.mem_cons_self a l)
      simp only [List.dropWhile_cons, ha, if_true]
      exact ih fun x hx => h x (List.mem_cons_of_mem a hx)

theorem dropWhile_first_stop {α : Type} (p : α → Bool) (cfg : α) (rest : List α) :
    ∀ front : List α, (∀ x ∈ front, p x = true) → p cfg = false →
      (front ++ cfg :: rest).dropWhile p = cfg :: rest := by
  intro front
  induction front with
  | nil => intro _ hcfg; simp [List.dropWhile_cons, hcfg]
  | cons a l ih =>
      intro h hcfg
      have ha := h a (List.mem_cons_self a l)
      simp only [List.cons_append, List.dropWhile_cons, ha, if_true]
      exact ih (fun x hx => h x (List.mem_cons_of_mem a hx)) hcfg

theorem takeWhile_first_stop {α : Type} (p : α → Bool) (cfg : α) (rest : List α) :
    ∀ front : List α, (∀ x ∈ front, p x = true) → p cfg = false →
      (front ++ cfg :: rest).takeWhile p = front := by
  intro front
  induction front with
  | nil => intro _ hcfg; simp [List.takeWhile_cons, hcfg]
  | cons a l ih =>
      intro h hcfg
      have ha := h a (List.mem_cons_self a l)
      simp only [List.cons_append, List.takeWhile_cons, ha, if_true]
      exact congrArg (a :: ·) (ih (fun x hx => h x (List.mem_cons_of_mem a hx)) hcfg)

theorem find?_bnot_eq_head_dropWhile {α : Type} (p : α → Bool) :
    ∀ l : List α, l.find? (fun a => !(p a)) = (l.dropWhile p).head? := by
  intro l
  induction l with
  | nil => rfl
  | cons a l ih =>
      by_cases ha : p a
      · simp [List.find?_cons, List.dropWhile_cons, ha, ih]
      · simp [List.find?_cons, List.dropWhile_cons, ha]

/-! Homomorphism and vanishing lemmas for the trace projections. -/

theorem surfaceAttempts_append (a b : List Call) :
    surfaceAttempts (a ++ b) = surfaceAttempts a ++ surfaceAttempts b := by
  simp [surfaceAttempts, List.filterMap_append]

theorem contextAttempts_append (a b : List Call) :
    contextAttempts (a ++ b) = contextAttempts a ++ contextAttempts b := by
  simp [contextAttempts, List.filterMap_append]

theorem createdSurfaces_append (egl : Egl) (a b : List Call) :
    createdSurfaces egl (a ++ b) = createdSurfaces egl a ++ createdSurfaces egl b := by
  simp [createdSurfaces, List.filterMap_append]

theorem destroyedSurfaces_append (a b : List Call) :
    destroyedSurfaces (a ++ b) = destroyedSurfaces a ++ destroyedSurfaces b := by
  simp [destroyedSurfaces, List.filterMap_append]

theorem createdContexts_append (egl : Egl) (a b : List Call) :
    createdContexts egl (a ++ b) = createdContexts egl a ++ createdContexts egl b := by
  simp [createdContexts, List.filterMap_append]

theorem destroyedContexts_append (a b : List Call) :
    destroyedContexts (a ++ b) = destroyedContexts a ++ destroyedContexts b := by
  simp [destroyedContexts, List.filterMap_append]

theorem teardownCalls_append (a b : List Call) :
    teardownCalls (a ++ b) = teardownCalls a ++ teardownCalls b := by
  simp [teardownCalls, List.filter_append]

theorem surfaceAttempts_failTrace (dpy w : Nat) :
    ∀ l : List Nat, surfaceAttempts (failTrace dpy w l) = l := by
  intro l
  induction l with
  | nil => rfl
  | cons cfg rest ih =>
      simp only [failTrace, surfaceAttempts, List.filterMap_cons] at ih ⊢
      simp [ih]

theorem contextAttempts_failTrace (dpy w : Nat) :
    ∀ l : List Nat, contextAttempts (failTrace dpy w l) = [] := by
  intro l
  induction l with
  | nil => rfl
  | cons cfg rest ih =>
      simp only [failTrace, contextAttempts, List.filterMap_cons] at ih ⊢
      simp [ih]

theorem createdSurfaces_failTrace (egl : Egl) (dpy w : Nat) :
    ∀ l : List Nat, (∀ x ∈ l, egl.CreateWindowSurface dpy x w = 0) →
      createdSurfaces egl (failTrace dpy w l) = [] := by
  intro l
  induction l with
  | nil => intro _; rfl
  | cons cfg rest ih =>
      intro h
      have hc := h cfg (List.mem_cons_self cfg rest)
      simp only [failTrace, createdSurfaces, List.filterMap_cons] at ih ⊢
      simp [hc, ih fun x hx => h x (List.mem_cons_of_mem cfg hx)]

theorem destroyedSurfaces_failTrace (dpy w : Nat) :
    ∀ l : List Nat, destroyedSurfaces (failTrace dpy w l) = [] := by
  intro l
  induction l with
  | nil => rfl
  | cons cfg rest ih =>
      simp only [failTrace, destroyedSurfaces, List.filterMap_cons] at ih ⊢
      simp [ih]

theorem createdContexts_failTrace (egl : Egl) (dpy w : Nat) :
    ∀ l : List Nat, createdContexts egl (failTrace dpy w l) = [] := by
  intro l
  induction l with
  | nil => rfl
  | cons cfg rest ih =>
      simp only [failTrace, createdContexts, List.filterMap_cons] at ih ⊢
      simp [ih]

theorem destroyedContexts_failTrace (dpy w : Nat) :
    ∀ l : List Nat, destroyedContexts (failTrace dpy w l) = [] := by
  intro l
  induction l with
  | nil => rfl
  | cons cfg rest ih =>
      simp only [failTrace, destroyedContexts, List.filterMap_cons] at ih ⊢
      simp [ih]

theorem teardownCalls_failTrace (dpy w : Nat) :
    ∀ l : List Nat, teardownCalls (failTrace dpy w l) = [] := by
  intro l
  induction l with
  | nil => rfl
  | cons cfg rest ih =>
      simp only [failTrace, teardownCalls, List.filter_cons] at ih ⊢
      simp [ih, Call.isTeardown]

/-! Facts about the trace of `Drop`. -/

theorem surfaceAttempts_drop (egl : Egl) (st : GlContext) :
    surfaceAttempts (GlContext.drop egl st).2 = [] := by
  unfold GlContext.drop GlContext.make_not_current
  by_cases h1 : st.display = EGL_NO_DISPLAY
  · simp [h1, surfaceAttempts]
  · by_cases h2 : egl.MakeCurrentOk st.display EGL_NO_SURFACE EGL_NO_SURFACE EGL_NO_CONTEXT
      <;> by_cases h3 : st.surface = EGL_NO_SURFACE
      <;> by_cases h4 : st.context = EGL_NO_CONTEXT
      <;> simp [h1, h2, h3, h4, surfaceAttempts]

theorem contextAttempts_drop (egl : Egl) (st : GlContext) :
    contextAttempts (GlContext.drop egl st).2 = [] := by
  unfold GlContext.drop GlContext.make_not_current
  by_cases h1 : st.display = EGL_NO_DISPLAY
  · simp [h1, contextAttempts]
  · by_cases h2 : egl.MakeCurrentOk st.display EGL_NO_SURFACE EGL_NO_SURFACE EGL_NO_CONTEXT
      <;> by_cases h3 : st.surface = EGL_NO_SURFACE
      <;> by_cases h4 : st.context = EGL_NO_CONTEXT
      <;> simp [h1, h2, h3, h4, contextAttempts]

theorem createdSurfaces_drop (egl : Egl) (st : GlContext) :
    createdSurfaces egl (GlContext.drop egl st).2 = [] := by
  unfold GlContext.drop GlContext.make_not_current
  by_cases h1 : st.display = EGL_NO_DISPLAY
  · simp [h1, createdSurfaces]
  · by_cases h2 : egl.MakeCurrentOk st.display EGL_NO_SURFACE EGL_NO_SURFACE EGL_NO_CONTEXT
      <;> by_cases h3 : st.surface = EGL_NO_SURFACE
      <;> by_cases h4 : st.context = EGL_NO_CONTEXT
      <;> simp [h1, h2, h3, h4, createdSurfaces]

theorem createdContexts_drop (egl : Egl) (st : GlContext) :
    createdContexts egl (GlContext.drop egl st).2 = [] := by
  unfold GlContext.drop GlContext.make_not_current
  by_cases h1 : st.display = EGL_NO_DISPLAY
  · simp [h1, createdContexts]
  · by_cases h2 : egl.MakeCurrentOk st.display EGL_NO_SURFACE EGL_NO_SURFACE EGL_NO_CONTEXT
      <;> by_cases h3 : st.surface = EGL_NO_SURFACE
      <;> by_cases h4 : st.context = EGL_NO_CONTEXT
      <;> simp [h1, h2, h3, h4, createdContexts]

theorem destroyedSurfaces_drop (egl : Egl) (st : GlContext) :
    destroyedSurfaces (GlContext.drop egl st).2 =
      if st.display = EGL_NO_DISPLAY then []
      else if st.surface = EGL_NO_SURFACE then [] else [st.surface] := by
  unfold GlContext.drop GlContext.make_not_current
  by_cases h1 : st.display = EGL_NO_DISPLAY
  · simp [h1, destroyedSurfaces]
  · by_cases h2 : egl.MakeCurrentOk st.display EGL_NO_SURFACE EGL_NO_SURFACE EGL_NO_CONTEXT
      <;> by_cases h3 : st.surface = EGL_NO_SURFACE
      <;> by_cases h4 : st.context = EGL_NO_CONTEXT
      <;> simp [h1, h2, h3, h4, destroyedSurfaces]

theorem destroyedContexts_drop (egl : Egl) (st : GlContext) :
    destroyedContexts (GlContext.drop egl st).2 =
      if st.display = EGL_NO_DISPLAY then []
      else if st.context = EGL_NO_CONTEXT then [] else [st.context] := by
  unfold GlContext.drop GlContext.make_not_current
  by_cases h1 : st.display = EGL_NO_DISPLAY
  · simp [h1, destroyedContexts]
  · by_cases h2 : egl.MakeCurrentOk st.display EGL_NO_SURFACE EGL_NO_SURFACE EGL_NO_CONTEXT
      <;> by_cases h3 : st.surface = EGL_NO_SURFACE
      <;> by_cases h4 : st.context = EGL_NO_CONTEXT
      <;> simp [h1, h2, h3, h4, destroyedContexts]

theorem teardownCalls_drop (egl : Egl) (st : GlContext) :
    teardownCalls (GlContext.drop egl st).2 =
      if st.display = EGL_NO_DISPLAY then []
      else
        [Call.MakeCurrent st.display EGL_NO_SURFACE EGL_NO_SURFACE EGL_NO_CONTEXT]
        ++ (if st.surface = EGL_NO_SURFACE then []
            else [Call.DestroySurface st.display st.surface])
        ++ (if st.context = EGL_NO_CONTEXT then []
            else [Call.DestroyContext st.display st.context])
        ++ [Call.Terminate st.display] := by
  unfold GlContext.drop GlContext.make_not_current
  simp only [EGL_NO_DISPLAY, EGL_NO_SURFACE, EGL_NO_CONTEXT]
  by_cases h1 : st.display = 0
  · simp [h1, teardownCalls, Call.isTeardown]
  · by_cases h2 : egl.MakeCurrentOk st.display 0 0 0
      <;> by_cases h3 : st.surface = 0
      <;> by_cases h4 : st.context = 0
      <;> simp [h1, h2, h3, h4, teardownCalls, Call.isTeardown]

theorem driverCalls_drop_sentinel (egl : Egl) (st : GlContext)
    (h : st.display = EGL_NO_DISPLAY) :
    driverCalls (GlContext.drop egl st).2 = [] := by
  unfold GlContext.drop
  simp [h, driverCalls, Call.isDriver]

/-! Claim theorems. -/

/-- Claim C5: for every configuration with api = GL and every window handle,
create returns ApiNotSupported, and the trace is empty: no driver call and no
other side effect (not even a log event) is performed before that return. -/
theorem create_gl_api_not_supported (egl : Egl) (parent : RawWindowHandle)
    (conf : GlConfig) (hapi : conf.api = Api.Gl) :
    GlContext.create egl parent conf = some (Except.error GlError.ApiNotSupported, []) := by
  unfold GlContext.create
  simp [hapi]

/-- Witness for C5 at a concrete configuration and handle. -/
theorem create_gl_api_not_supported_witness :
    GlContext.create
        ⟨1, true, true, [11, 12], 2, fun _ _ _ => 5, fun _ _ _ _ => 7,
         fun _ _ _ _ => true, fun _ _ => true, fun _ => 0, 0⟩
        (RawWindowHandle.AndroidNdk 3)
        ⟨(2, 0), 8, 8, 8, 8, 24, 8, none, Api.Gl, none⟩
      = some (Except.error GlError.ApiNotSupported, []) :=
  create_gl_api_not_supported _ _ _ rfl

/-- Claim C6: with the supported API requested, a window handle that is not of
the AndroidNdk variant, or whose native window pointer is null, makes create
fail with InvalidWindowHandle, and the trace contains no driver call (only the
diagnostic log). -/
theorem create_invalid_window_handle (egl : Egl) (parent : RawWindowHandle)
    (conf : GlConfig) (hapi : conf.api = Api.Gles)
    (hbad : ∀ w, parent = RawWindowHandle.AndroidNdk w → w = 0) :
    ∃ tr, GlContext.create egl parent conf =
        some (Except.error GlError.InvalidWindowHandle, tr)
      ∧ driverCalls tr = [] := by
  cases parent with
  | Other =>
      refine ⟨[Call.LogError "invalid window handle"], ?_, rfl⟩
      unfold GlContext.create
      simp [hapi]
  | AndroidNdk w =>
      have hw : w = 0 := hbad w rfl
      refine ⟨[Call.LogError "window handle is null"], ?_, rfl⟩
      unfold GlContext.create
      simp [hapi, hw]

/-- Witness for C6 at a concrete wrong-variant handle. -/
theorem create_invalid_window_handle_witness :
    ∃ tr, GlContext.create
        ⟨1, true, true, [11, 12], 2, fun _ _ _ => 5, fun _ _ _ _ => 7,
         fun _ _ _ _ => true, fun _ _ => true, fun _ => 0, 0⟩
        RawWindowHandle.Other
        ⟨(2, 0), 8, 8, 8, 8, 24, 8, none, Api.Gles, none⟩
      = some (Except.error GlError.InvalidWindowHandle, tr) ∧ driverCalls tr = [] :=
  create_invalid_window_handle _ _ _ rfl (fun _ h => nomatch h)

/-- Claim C4: make_current, make_not_current and swap_buffers never propagate
a failure: their Rust return type is unit (here: the unchanged receiver plus a
trace, never an error value or a panic), and when the driver reports failure
the trace carries, after the driver call, only the eglGetError of the
diagnostic and the log event itself. -/
theorem best_effort_ops_swallow_failures (egl : Egl) (c : GlContext) :
    (GlContext.make_current egl c =
      (c, if egl.MakeCurrentOk c.display c.surface c.surface c.context then
            [Call.MakeCurrent c.display c.surface c.surface c.context]
          else
            [Call.MakeCurrent c.display c.surface c.surface c.context,
             Call.GetError, Call.LogError "eglMakeCurrent failed in make_current"]))
    ∧ (GlContext.make_not_current egl c =
      (c, if egl.MakeCurrentOk c.display EGL_NO_SURFACE EGL_NO_SURFACE EGL_NO_CONTEXT then
            [Call.MakeCurrent c.display EGL_NO_SURFACE EGL_NO_SURFACE EGL_NO_CONTEXT]
          else
            [Call.MakeCurrent c.display EGL_NO_SURFACE EGL_NO_SURFACE EGL_NO_CONTEXT,
             Call.GetError, Call.LogError "eglMakeCurrent failed in make_not_current"]))
    ∧ (GlContext.swap_buffers egl c =
      (c, if egl.SwapBuffersOk c.display c.surface then
            [Call.SwapBuffers c.display c.surface]
          else
            [Call.SwapBuffers c.display c.surface,
             Call.GetError, Call.LogError "eglSwapBuffers failed in swap_buffer"])) :=
  ⟨rfl, rfl, rfl⟩

/-- Claim C8: get_proc_address on a symbol with no interior NUL byte does not
panic: the CString conversion succeeds and the call returns exactly the
driver's function-pointer query result (which may be 0, i.e. null, for an
unknown symbol). -/
theorem get_proc_address_no_interior_nul (egl : Egl) (c : GlContext)
    (symbol : String) (h : (Char.ofNat 0) ∉ symbol.toList) :
    GlContext.get_proc_address egl c symbol =
      some (c, egl.GetProcAddress symbol, [Call.GetProcAddress symbol]) := by
  unfold GlContext.get_proc_address
  simp only [String.toList] at h
  simp [h]

/-- Witness for C8 at a concrete NUL-free symbol. -/
theorem get_proc_address_no_interior_nul_witness :
    GlContext.get_proc_address
        ⟨1, true, true, [11, 12], 2, fun _ _ _ => 5, fun _ _ _ _ => 7,
         fun _ _ _ _ => true, fun _ _ => true, fun _ => 0, 0⟩
        ⟨1, 7, 5⟩ "glClear"
      = some (⟨1, 7, 5⟩, 0, [Call.GetProcAddress "glClear"]) :=
  get_proc_address_no_interior_nul _ _ _ (by decide)

/-- Claim C9: make_current, make_not_current, swap_buffers and
get_proc_address leave the stored display, surface and context fields
unchanged; only Drop mutates them (it resets the surface field to the
no-surface sentinel whenever it destroys something). -/
theorem only_drop_mutates_fields (egl : Egl) (c : GlContext) (symbol : String) :
    (GlContext.make_current egl c).1 = c
    ∧ (GlContext.make_not_current egl c).1 = c
    ∧ (GlContext.swap_buffers egl c).1 = c
    ∧ (Option.map (fun x => x.1) (GlContext.get_proc_address egl c symbol) =
        if (Char.ofNat 0) ∈ symbol.toList then none else some c)
    ∧ (GlContext.drop egl c).1 =
        ⟨c.display, c.context,
         if c.display = EGL_NO_DISPLAY then c.surface else EGL_NO_SURFACE⟩ := by
  refine ⟨rfl, rfl, rfl, ?_, ?_⟩
  · simp only [GlContext.get_proc_address, String.toList]
    by_cases h : (Char.ofNat 0) ∈ symbol.data <;> simp [h]
  · obtain ⟨d, ctxv, s⟩ := c
    unfold GlContext.drop
    by_cases h : d = EGL_NO_DISPLAY <;> simp [h]

theorem surfaceAttempts_make_current (egl : Egl) (st : GlContext) :
    surfaceAttempts (GlContext.make_current egl st).2 = [] := by
  unfold GlContext.make_current
  by_cases h : egl.MakeCurrentOk st.display st.surface st.surface st.context
    <;> simp [h, surfaceAttempts]

theorem contextAttempts_make_current (egl : Egl) (st : GlContext) :
    contextAttempts (GlContext.make_current egl st).2 = [] := by
  unfold GlContext.make_current
  by_cases h : egl.MakeCurrentOk st.display st.surface st.surface st.context
    <;> simp [h, contextAttempts]

/-- Claim C1: with the driver negotiation succeeding up to config enumeration,
create attempts window-surface binding strictly in candidate-list order with
early termination.  If the candidates split as front ++ cfg :: rest with every
bind in front failing and cfg's bind succeeding, exactly the binds
front ++ [cfg] are attempted, in that order, and cfg is the one config handed
to context creation; if every candidate's bind fails, exactly the full
candidate list is attempted and create returns CreationFailed with no context
creation attempted. -/
theorem create_retry_in_order (egl : Egl) (w : Nat) (conf : GlConfig)
    (hapi : conf.api = Api.Gles) (hw : w ≠ 0)
    (hdpy : egl.GetDisplay ≠ EGL_NO_DISPLAY) (hinit : egl.InitOk = true)
    (hcc : egl.ChooseConfigOk = true)
    (hnum : egl.ChooseConfigNum ≠ 0) (h64 : egl.ChooseConfigNum ≤ 64) :
    (∀ front cfg rest,
      candidates egl = front ++ cfg :: rest →
      (∀ x ∈ front, egl.CreateWindowSurface egl.GetDisplay x w = 0) →
      egl.CreateWindowSurface egl.GetDisplay cfg w ≠ 0 →
      ∃ r tr, GlContext.create egl (RawWindowHandle.AndroidNdk w) conf = some (r, tr)
        ∧ surfaceAttempts tr = front ++ [cfg]
        ∧ contextAttempts tr = [cfg])
    ∧ ((∀ x ∈ candidates egl, egl.CreateWindowSurface egl.GetDisplay x w = 0) →
      ∃ tr, GlContext.create egl (RawWindowHandle.AndroidNdk w) conf =
          some (Except.error GlError.CreationFailed, tr)
        ∧ surfaceAttempts tr = candidates egl
        ∧ contextAttempts tr = []) := by
  have hnot64 : ¬ (64 < egl.ChooseConfigNum) := not_lt.mpr h64
  constructor
  · intro front cfg rest hsplit hfail hsucc
    have hfr : ∀ x ∈ front,
        (fun c => egl.CreateWindowSurface egl.GetDisplay c w == 0) x = true := by
      intro x hx; simp [hfail x hx]
    have hcfg : (fun c => egl.CreateWindowSurface egl.GetDisplay c w == 0) cfg = false := by
      simp [hsucc]
    unfold GlContext.create
    simp only [hapi, hw, hdpy, hinit, hcc, hnum, hnot64, if_false, ite_false,
      ite_true, Bool.true_eq_false, if_neg, not_false_eq_true]
    rw [surfaceLoop_eq egl egl.GetDisplay w, hsplit,
        dropWhile_first_stop _ cfg rest front hfr hcfg,
        takeWhile_first_stop _ cfg rest front hfr hcfg]
    by_cases hctx : egl.CreateContext egl.GetDisplay cfg (shared_context conf)
        (ctx_attribs conf) = EGL_NO_CONTEXT
    · simp only [hctx, ite_true, if_pos]
      refine ⟨_, _, rfl, ?_, ?_⟩
      · simp only [surfaceAttempts_append, surfaceAttempts_failTrace, surfaceAttempts_drop]
        simp [surfaceAttempts, List.filterMap_cons]
      · simp only [contextAttempts_append, contextAttempts_failTrace, contextAttempts_drop]
        simp [contextAttempts, List.filterMap_cons]
    · simp only [hctx, ite_false, if_neg, not_false_eq_true]
      refine ⟨_, _, rfl, ?_, ?_⟩
      · simp only [surfaceAttempts_append, surfaceAttempts_failTrace,
          surfaceAttempts_make_current]
        simp [surfaceAttempts, List.filterMap_cons]
      · simp only [contextAttempts_append, contextAttempts_failTrace,
          contextAttempts_make_current]
        simp [contextAttempts, List.filterMap_cons]
  · intro hall
    have hallb : ∀ x ∈ candidates egl,
        (fun c => egl.CreateWindowSurface egl.GetDisplay c w == 0) x = true := by
      intro x hx; simp [hall x hx]
    unfold GlContext.create
    simp only [hapi, hw, hdpy, hinit, hcc, hnum, hnot64, if_false, ite_false,
      ite_true, Bool.true_eq_false, if_neg, not_false_eq_true]
    rw [surfaceLoop_eq egl egl.GetDisplay w, dropWhile_all _ _ hallb]
    refine ⟨_, rfl, ?_, ?_⟩
    · simp only [surfaceAttempts_append, surfaceAttempts_failTrace, surfaceAttempts_drop]
      simp [surfaceAttempts, List.filterMap_cons]
    · simp only [contextAttempts_append, contextAttempts_failTrace, contextAttempts_drop]
      simp [contextAttempts, List.filterMap_cons]

/-- Concrete driver oracle for the retry witness: two candidate configs 11 and
12; binding 11 fails, binding 12 succeeds. -/
def eglRetry : Egl :=
  ⟨1, true, true, [11, 12], 2, fun _ cfg _ => if cfg = 11 then 0 else 6,
   fun _ _ _ _ => 7, fun _ _ _ _ => true, fun _ _ => true, fun _ => 0, 0⟩

/-- Concrete GLES configuration shared by several witnesses. -/
def confGles : GlConfig := ⟨(2, 0), 8, 8, 8, 8, 24, 8, none, Api.Gles, none⟩

/-- Witness for C1: with candidates [11, 12], 11 failing and 12 succeeding,
exactly the binds [11, 12] are attempted, in order, and 12 is the config
handed to context creation. -/
theorem create_retry_in_order_witness :
    ∃ r tr, GlContext.create eglRetry (RawWindowHandle.AndroidNdk 3) confGles = some (r, tr)
      ∧ surfaceAttempts tr = [11] ++ [12]
      ∧ contextAttempts tr = [12] :=
  (create_retry_in_order eglRetry 3 confGles rfl (by decide) (by decide) rfl rfl
      (by decide) (by decide)).1 [11] 12 [] (by decide) (by decide) (by decide)

/-- Claim C3: with the supported API and a valid handle (which exclude the
other two error kinds) and the driver respecting the 64-entry cap (which
excludes the slice panic), create returns CreationFailed exactly when one of
the six driver-level failure points occurs: display open returns NO_DISPLAY,
display initialization fails, config enumeration fails, config enumeration
returns zero candidates, every surface-bind attempt fails, or context creation
returns NO_CONTEXT for the first bindable config.  The result is then an
Except.error, so no assembled context reaches the caller. -/
theorem create_creation_failed_iff (egl : Egl) (w : Nat) (conf : GlConfig)
    (hapi : conf.api = Api.Gles) (hw : w ≠ 0) (h64 : egl.ChooseConfigNum ≤ 64) :
    (∃ tr, GlContext.create egl (RawWindowHandle.AndroidNdk w) conf =
        some (Except.error GlError.CreationFailed, tr))
    ↔ (egl.GetDisplay = EGL_NO_DISPLAY
       ∨ egl.InitOk = false
       ∨ egl.ChooseConfigOk = false
       ∨ egl.ChooseConfigNum = 0
       ∨ firstWorkingConfig egl w = none
       ∨ (∃ cfg, firstWorkingConfig egl w = some cfg ∧
            egl.CreateContext egl.GetDisplay cfg (shared_context conf)
              (ctx_attribs conf) = EGL_NO_CONTEXT)) := by
  have hnot64 : ¬ (64 < egl.ChooseConfigNum) := not_lt.mpr h64
  unfold GlContext.create
  by_cases h1 : egl.GetDisplay = EGL_NO_DISPLAY
  · simp [hapi, hw, h1]
  by_cases h2 : egl.InitOk = false
  · simp [hapi, hw, h1, h2]
  have h2' : egl.InitOk = true := by revert h2; cases egl.InitOk <;> simp
  by_cases h3 : egl.ChooseConfigOk = false
  · simp [hapi, hw, h1, h2', h3]
  have h3' : egl.ChooseConfigOk = true := by revert h3; cases egl.ChooseConfigOk <;> simp
  by_cases h4 : egl.ChooseConfigNum = 0
  · simp [hapi, hw, h1, h2', h3', h4]
  have hfw : firstWorkingConfig egl w =
      ((candidates egl).dropWhile
        (fun cfg => egl.CreateWindowSurface egl.GetDisplay cfg w == 0)).head? := by
    unfold firstWorkingConfig
    rw [find?_bnot_eq_head_dropWhile]
  simp only [hapi, hw, h1, h2', h3', h4, hnot64, if_false, ite_false, ite_true,
    Bool.true_eq_false, if_neg, not_false_eq_true]
  rw [surfaceLoop_eq egl egl.GetDisplay w]
  cases hd : (candidates egl).dropWhile
      (fun cfg => egl.CreateWindowSurface egl.GetDisplay cfg w == 0) with
  | nil =>
      simp [h1, h2', h3', h4, hfw, hd]
  | cons cfg rest =>
      by_cases hctx : egl.CreateContext egl.GetDisplay cfg (shared_context conf)
          (ctx_attribs conf) = EGL_NO_CONTEXT
      · simp [h1, h2', h3', h4, hfw, hd, hctx]
      · simp [h1, h2', h3', h4, hfw, hd, hctx]

/-- Concrete driver oracle whose display initialization fails. -/
def eglInitFail : Egl :=
  ⟨1, false, true, [], 0, fun _ _ _ => 0, fun _ _ _ _ => 0,
   fun _ _ _ _ => true, fun _ _ => true, fun _ => 0, 0⟩

/-- Witness for C3: a failing display initialization yields CreationFailed. -/
theorem create_creation_failed_iff_witness :
    ∃ tr, GlContext.create eglInitFail (RawWindowHandle.AndroidNdk 3) confGles =
        some (Except.error GlError.CreationFailed, tr) :=
  (create_creation_failed_iff eglInitFail 3 confGles rfl (by decide) (by decide)).2
    (Or.inr (Or.inl rfl))

theorem dropWhile_eq_nil_imp {α : Type} (p : α → Bool) :
    ∀ l : List α, l.dropWhile p = [] → ∀ x ∈ l, p x = true := by
  intro l
  induction l with
  | nil => intro _ x hx; cases hx
  | cons a t ih =>
      intro h x hx
      by_cases ha : p a
      · rw [List.dropWhile_cons, if_pos ha] at h
        rcases List.mem_cons.mp hx with hxa | hxt
        · rw [hxa]; exact ha
        · exact ih h x hxt
      · rw [List.dropWhile_cons, if_neg ha] at h
        cases h

theorem dropWhile_head_false {α : Type} (p : α → Bool) :
    ∀ (l : List α) (a : α) (t : List α), l.dropWhile p = a :: t → p a = false := by
  intro l
  induction l with
  | nil => intro a t h; cases h
  | cons b t' ih =>
      intro a t h
      by_cases hb : p b
      · rw [List.dropWhile_cons, if_pos hb] at h
        exact ih a t h
      · rw [List.dropWhile_cons, if_neg hb] at h
        cases h
        exact Bool.not_eq_true _ ▸ (by simpa using hb)

theorem mem_takeWhile_prop {α : Type} (p : α → Bool) :
    ∀ (l : List α) (x : α), x ∈ l.takeWhile p → p x = true := by
  intro l
  induction l with
  | nil => intro x hx; cases hx
  | cons a t ih =>
      intro x hx
      by_cases ha : p a
      · rw [List.takeWhile_cons, if_pos ha] at hx
        rcases List.mem_cons.mp hx with hxa | hxt
        · rw [hxa]; exact ha
        · exact ih x hxt
      · rw [List.takeWhile_cons, if_neg ha] at hx
        cases hx

/-- Claim C10: create panics (the out-of-bounds slice of the 64-entry config
array, modelled by the `none` result) exactly when the API and handle checks
and all driver steps up to config enumeration succeed and the driver reported
a num_config larger than the 64-entry cap passed to eglChooseConfig; whenever
num_config is at most 64 the slice is in bounds and no panic occurs. -/
theorem create_slice_panic_iff (egl : Egl) (parent : RawWindowHandle) (conf : GlConfig) :
    GlContext.create egl parent conf = none ↔
      (conf.api = Api.Gles
       ∧ (∃ w, parent = RawWindowHandle.AndroidNdk w ∧ w ≠ 0)
       ∧ egl.GetDisplay ≠ EGL_NO_DISPLAY
       ∧ egl.InitOk = true
       ∧ egl.ChooseConfigOk = true
       ∧ 64 < egl.ChooseConfigNum) := by
  unfold GlContext.create
  cases hapi : conf.api with
  | Gl => simp [hapi]
  | Gles =>
  cases parent with
  | Other => simp [hapi]
  | AndroidNdk w =>
  by_cases hw : w = 0
  · simp [hapi, hw]
  by_cases h1 : egl.GetDisplay = EGL_NO_DISPLAY
  · simp [hapi, hw, h1]
  by_cases h2 : egl.InitOk = false
  · simp [hapi, hw, h1, h2]
  have h2' : egl.InitOk = true := by revert h2; cases egl.InitOk <;> simp
  by_cases h3 : egl.ChooseConfigOk = false
  · simp [hapi, hw, h1, h2', h3]
  have h3' : egl.ChooseConfigOk = true := by revert h3; cases egl.ChooseConfigOk <;> simp
  by_cases h4 : egl.ChooseConfigNum = 0
  · simp [hapi, hw, h1, h2', h3', h4]
  by_cases h5 : 64 < egl.ChooseConfigNum
  · simp [hapi, hw, h1, h2', h3', h4, h5]
  · simp only [hapi, hw, h1, h2', h3', h4, h5, if_false, ite_false, ite_true,
      Bool.true_eq_false, if_neg, not_false_eq_true, and_false, iff_false]
    intro hnone
    split at hnone
    · simp at hnone
    · split at hnone <;> simp at hnone

/-- Claim C7: whenever create returns successfully, the final step before the
return was exactly a make_current on the returned object: the trace ends with
the trace of GlContext.make_current applied to the returned object (the driver
binding of (display, surface, surface, context)), and that call leaves the
object unchanged, so a subsequent make_current performs the same driver
binding with the same arguments. -/
theorem create_success_immediately_current (egl : Egl) (parent : RawWindowHandle)
    (conf : GlConfig) (c : GlContext) (tr : List Call)
    (h : GlContext.create egl parent conf = some (Except.ok c, tr)) :
    (∃ pre, tr = pre ++ (GlContext.make_current egl c).2)
    ∧ (GlContext.make_current egl c).1 = c := by
  refine ⟨?_, rfl⟩
  unfold GlContext.create at h
  by_cases hapi : conf.api = Api.Gl
  · simp [hapi] at h
  have hapi1 : conf.api = Api.Gles := by revert hapi; cases conf.api <;> simp
  cases parent with
  | Other => simp [hapi1] at h
  | AndroidNdk w =>
    by_cases hw : w = 0
    · simp [hapi1, hw] at h
    by_cases h1 : egl.GetDisplay = EGL_NO_DISPLAY
    · simp [hapi1, hw, h1] at h
    by_cases h2 : egl.InitOk = false
    · simp [hapi1, hw, h1, h2] at h
    have h2' : egl.InitOk = true := by revert h2; cases egl.InitOk <;> simp
    by_cases h3 : egl.ChooseConfigOk = false
    · simp [hapi1, hw, h1, h2', h3] at h
    have h3' : egl.ChooseConfigOk = true := by revert h3; cases egl.ChooseConfigOk <;> simp
    by_cases h4 : egl.ChooseConfigNum = 0
    · simp [hapi1, hw, h1, h2', h3', h4] at h
    by_cases h5 : 64 < egl.ChooseConfigNum
    · simp [hapi1, hw, h1, h2', h3', h4, h5] at h
    simp only [hapi1, hw, h1, h2', h3', h4, h5, if_false, ite_false, ite_true,
      Bool.true_eq_false, if_neg, not_false_eq_true] at h
    rw [surfaceLoop_eq egl egl.GetDisplay w] at h
    cases hd : (candidates egl).dropWhile
        (fun cfg => egl.CreateWindowSurface egl.GetDisplay cfg w == 0) with
    | nil => rw [hd] at h; simp at h
    | cons cfg rest =>
      rw [hd] at h
      by_cases hctx : egl.CreateContext egl.GetDisplay cfg (shared_context conf)
          (ctx_attribs conf) = EGL_NO_CONTEXT
      · simp [hctx] at h
      · simp only [hctx, ite_false, if_neg, not_false_eq_true, Option.some.injEq,
          Prod.mk.injEq, Except.ok.injEq] at h
        obtain ⟨hc, htr⟩ := h
        rw [← htr, ← hc]
        exact ⟨_, rfl⟩

/-- Successful creation trace of the eglRetry oracle. -/
def trRetry : List Call :=
  [Call.GetDisplay, Call.InitDisplay 1, Call.LogInfo "initialized EGL",
   Call.ChooseConfig 1 (attribs confGles) 64,
   Call.LogInfo "eglChooseConfig returned configs",
   Call.CreateWindowSurface 1 11 3, Call.GetError,
   Call.LogError "eglCreateWindowSurface failed",
   Call.CreateWindowSurface 1 12 3,
   Call.CreateContext 1 12 0 (ctx_attribs confGles),
   Call.MakeCurrent 1 6 6 7]

/-- Witness for C7 at the concrete retry oracle. -/
theorem create_success_immediately_current_witness :
    (∃ pre, trRetry = pre ++ (GlContext.make_current eglRetry ⟨1, 7, 6⟩).2)
    ∧ (GlContext.make_current eglRetry ⟨1, 7, 6⟩).1 = ⟨1, 7, 6⟩ :=
  create_success_immediately_current eglRetry (RawWindowHandle.AndroidNdk 3) confGles
    ⟨1, 7, 6⟩ trRetry rfl


theorem liveSurfaces_nil_of_created_nil (egl : Egl) (tr : List Call)
    (h : createdSurfaces egl tr = []) : liveSurfaces egl tr = [] := by
  unfold liveSurfaces
  rw [h]
  rfl

theorem liveContexts_nil_of_created_nil (egl : Egl) (tr : List Call)
    (h : createdContexts egl tr = []) : liveContexts egl tr = [] := by
  unfold liveContexts
  rw [h]
  rfl

theorem liveSurfaces_created_destroyed (egl : Egl) (tr : List Call) (s : Nat)
    (hc : createdSurfaces egl tr = [s]) (hdst : destroyedSurfaces tr = [s]) :
    liveSurfaces egl tr = [] := by
  unfold liveSurfaces
  rw [hc, hdst]
  simp [List.contains]

/-- Claim C2: Drop performs driver calls only when the display is live, and
then in the fixed order unbind, destroy-surface (if live), destroy-context
(if live), terminate; and every error return of create leaves no surface and
no context live, the trace of any failure after the display was opened ending
with the same skip-if-never-created teardown pattern. -/
theorem drop_teardown_fixed_order (egl : Egl) :
    (∀ st : GlContext,
      (st.display = EGL_NO_DISPLAY → driverCalls (GlContext.drop egl st).2 = [])
      ∧ (st.display ≠ EGL_NO_DISPLAY →
        teardownCalls (GlContext.drop egl st).2 =
          [Call.MakeCurrent st.display EGL_NO_SURFACE EGL_NO_SURFACE EGL_NO_CONTEXT]
          ++ (if st.surface = EGL_NO_SURFACE then []
              else [Call.DestroySurface st.display st.surface])
          ++ (if st.context = EGL_NO_CONTEXT then []
              else [Call.DestroyContext st.display st.context])
          ++ [Call.Terminate st.display]))
    ∧ (∀ (parent : RawWindowHandle) (conf : GlConfig) (e : GlError) (tr : List Call),
        GlContext.create egl parent conf = some (Except.error e, tr) →
          liveSurfaces egl tr = [] ∧ liveContexts egl tr = []
          ∧ (e = GlError.CreationFailed → egl.GetDisplay ≠ EGL_NO_DISPLAY →
              ∃ ds, teardownCalls tr =
                [Call.MakeCurrent egl.GetDisplay EGL_NO_SURFACE EGL_NO_SURFACE EGL_NO_CONTEXT]
                ++ ds ++ [Call.Terminate egl.GetDisplay]
                ∧ (ds = [] ∨ ∃ s, s ≠ EGL_NO_SURFACE
                    ∧ ds = [Call.DestroySurface egl.GetDisplay s]))) := by
  constructor
  · intro st
    refine ⟨driverCalls_drop_sentinel egl st, ?_⟩
    intro h0
    rw [teardownCalls_drop, if_neg h0]
  · intro parent conf e tr h
    unfold GlContext.create at h
    by_cases hapi : conf.api = Api.Gl
    · simp only [hapi, Option.some.injEq, Prod.mk.injEq, Except.error.injEq] at h
      obtain ⟨he, htr⟩ := h
      subst he; subst htr
      exact ⟨rfl, rfl, fun he => nomatch he⟩
    have hapi1 : conf.api = Api.Gles := by revert hapi; cases conf.api <;> simp
    cases parent with
    | Other =>
        simp only [hapi1, Option.some.injEq, Prod.mk.injEq, Except.error.injEq] at h
        obtain ⟨he, htr⟩ := h
        subst he; subst htr
        exact ⟨rfl, rfl, fun he => nomatch he⟩
    | AndroidNdk w =>
    by_cases hw : w = 0
    · simp only [hapi1, hw, eq_self_iff_true, if_true, ite_true, Option.some.injEq,
        Prod.mk.injEq, Except.error.injEq] at h
      obtain ⟨he, htr⟩ := h
      subst he; subst htr
      exact ⟨rfl, rfl, fun he => nomatch he⟩
    by_cases h1 : egl.GetDisplay = EGL_NO_DISPLAY
    · simp only [hapi1, hw, h1, eq_self_iff_true, if_true, ite_true, if_false,
        ite_false, Option.some.injEq, Prod.mk.injEq, Except.error.injEq] at h
      obtain ⟨he, htr⟩ := h
      subst he; subst htr
      exact ⟨rfl, rfl, fun _ hne => absurd h1 hne⟩
    by_cases h2 : egl.InitOk = false
    · simp only [hapi1, hw, h1, h2, eq_self_iff_true, if_true, ite_true, if_false,
        ite_false, Option.some.injEq, Prod.mk.injEq, Except.error.injEq] at h
      obtain ⟨he, htr⟩ := h
      subst he; subst htr
      refine ⟨?_, ?_, fun _ hne => ?_⟩
      · refine liveSurfaces_nil_of_created_nil _ _ ?_
        simp only [createdSurfaces_append, createdSurfaces_drop]
        simp [createdSurfaces, List.filterMap_cons]
      · refine liveContexts_nil_of_created_nil _ _ ?_
        simp only [createdContexts_append, createdContexts_drop]
        simp [createdContexts, List.filterMap_cons]
      · refine ⟨[], ?_, Or.inl rfl⟩
        simp only [teardownCalls_append, teardownCalls_drop, if_neg h1]
        simp [teardownCalls, Call.isTeardown, List.filter_cons]
    have h2' : egl.InitOk = true := by revert h2; cases egl.InitOk <;> simp
    by_cases h3 : egl.ChooseConfigOk = false
    · simp only [hapi1, hw, h1, h2', h3, eq_self_iff_true, if_true, ite_true, if_false,
        ite_false, Bool.true_eq_false, Option.some.injEq, Prod.mk.injEq,
        Except.error.injEq] at h
      obtain ⟨he, htr⟩ := h
      subst he; subst htr
      refine ⟨?_, ?_, fun _ hne => ?_⟩
      · refine liveSurfaces_nil_of_created_nil _ _ ?_
        simp only [createdSurfaces_append, createdSurfaces_drop]
        simp [createdSurfaces, List.filterMap_cons]
      · refine liveContexts_nil_of_created_nil _ _ ?_
        simp only [createdContexts_append, createdContexts_drop]
        simp [createdContexts, List.filterMap_cons]
      · refine ⟨[], ?_, Or.inl rfl⟩
        simp only [teardownCalls_append, teardownCalls_drop, if_neg h1]
        simp [teardownCalls, Call.isTeardown, List.filter_cons]
    have h3' : egl.ChooseConfigOk = true := by revert h3; cases egl.ChooseConfigOk <;> simp
    by_cases h4 : egl.ChooseConfigNum = 0
    · simp only [hapi1, hw, h1, h2', h3', h4, eq_self_iff_true, if_true, ite_true,
        if_false, ite_false, Bool.true_eq_false, Option.some.injEq, Prod.mk.injEq,
        Except.error.injEq] at h
      obtain ⟨he, htr⟩ := h
      subst he; subst htr
      refine ⟨?_, ?_, fun _ hne => ?_⟩
      · refine liveSurfaces_nil_of_created_nil _ _ ?_
        simp only [createdSurfaces_append, createdSurfaces_drop]
        simp [createdSurfaces, List.filterMap_cons]
      · refine liveContexts_nil_of_created_nil _ _ ?_
        simp only [createdContexts_append, createdContexts_drop]
        simp [createdContexts, List.filterMap_cons]
      · refine ⟨[], ?_, Or.inl rfl⟩
        simp only [teardownCalls_append, teardownCalls_drop, if_neg h1]
        simp [teardownCalls, Call.isTeardown, List.filter_cons]
    by_cases h5 : 64 < egl.ChooseConfigNum
    · simp only [hapi1, hw, h1, h2', h3', h4, h5, eq_self_iff_true, if_true, ite_true,
        if_false, ite_false, Bool.true_eq_false] at h
      exact absurd h (by simp)
    simp only [hapi1, hw, h1, h2', h3', h4, h5, if_false, ite_false, ite_true,
      Bool.true_eq_false, if_neg, not_false_eq_true] at h
    rw [surfaceLoop_eq egl egl.GetDisplay w] at h
    cases hd : (candidates egl).dropWhile
        (fun cfg => egl.CreateWindowSurface egl.GetDisplay cfg w == 0) with
    | nil =>
        rw [hd] at h
        simp only [Option.some.injEq, Prod.mk.injEq, Except.error.injEq] at h
        obtain ⟨he, htr⟩ := h
        subst he; subst htr
        have hall : ∀ x ∈ candidates egl,
            egl.CreateWindowSurface egl.GetDisplay x w = 0 := by
          intro x hx
          have := dropWhile_eq_nil_imp _ _ hd x hx
          simpa using this
        have hcs := createdSurfaces_failTrace egl egl.GetDisplay w (candidates egl) hall
        refine ⟨?_, ?_, fun _ hne => ?_⟩
        · refine liveSurfaces_nil_of_created_nil _ _ ?_
          simp only [createdSurfaces_append, createdSurfaces_drop, hcs]
          simp [createdSurfaces, List.filterMap_cons]
        · refine liveContexts_nil_of_created_nil _ _ ?_
          simp only [createdContexts_append, createdContexts_drop,
            createdContexts_failTrace]
          simp [createdContexts, List.filterMap_cons]
        · refine ⟨[], ?_, Or.inl rfl⟩
          simp only [teardownCalls_append, teardownCalls_failTrace, teardownCalls_drop,
            if_neg h1]
          simp [teardownCalls, Call.isTeardown, List.filter_cons]
    | cons cfg rest =>
        rw [hd] at h
        by_cases hctx : egl.CreateContext egl.GetDisplay cfg (shared_context conf)
            (ctx_attribs conf) = EGL_NO_CONTEXT
        · simp only [hctx, eq_self_iff_true, if_true, ite_true, Option.some.injEq,
            Prod.mk.injEq, Except.error.injEq] at h
          obtain ⟨he, htr⟩ := h
          subst he; subst htr
          have hsurf : ¬ (egl.CreateWindowSurface egl.GetDisplay cfg w = 0) := by
            have := dropWhile_head_false _ _ cfg rest hd
            simpa using this
          have hsurfNE : egl.CreateWindowSurface egl.GetDisplay cfg w ≠ EGL_NO_SURFACE :=
            hsurf
          have hfrontfail : ∀ x ∈ (candidates egl).takeWhile
              (fun c => egl.CreateWindowSurface egl.GetDisplay c w == 0),
              egl.CreateWindowSurface egl.GetDisplay x w = 0 := by
            intro x hx
            have := mem_takeWhile_prop _ _ x hx
            simpa using this
          have hcs := createdSurfaces_failTrace egl egl.GetDisplay w _ hfrontfail
          refine ⟨?_, ?_, fun _ hne => ?_⟩
          · refine liveSurfaces_created_destroyed egl _
              (egl.CreateWindowSurface egl.GetDisplay cfg w) ?_ ?_
            · simp only [createdSurfaces_append, createdSurfaces_drop, hcs]
              simp [createdSurfaces, List.filterMap_cons, hsurf, hctx, EGL_NO_CONTEXT]
            · simp only [destroyedSurfaces_append, destroyedSurfaces_failTrace,
                destroyedSurfaces_drop, if_neg h1, if_neg hsurfNE]
              simp [destroyedSurfaces, List.filterMap_cons]
          · refine liveContexts_nil_of_created_nil _ _ ?_
            simp only [createdContexts_append, createdContexts_drop,
              createdContexts_failTrace]
            simp [createdContexts, List.filterMap_cons, hctx, EGL_NO_CONTEXT]
          · refine ⟨[Call.DestroySurface egl.GetDisplay
                (egl.CreateWindowSurface egl.GetDisplay cfg w)], ?_,
              Or.inr ⟨_, hsurfNE, rfl⟩⟩
            simp only [teardownCalls_append, teardownCalls_failTrace, teardownCalls_drop,
              if_neg h1, if_neg hsurfNE]
            simp [teardownCalls, Call.isTeardown, List.filter_cons]
        · simp [hctx] at h

/-- Concrete driver oracle whose context creation fails after the second
candidate config's surface bind succeeded. -/
def eglCtxFail : Egl :=
  ⟨1, true, true, [11, 12], 2, fun _ cfg _ => if cfg = 11 then 0 else 6,
   fun _ _ _ _ => 0, fun _ _ _ _ => true, fun _ _ => true, fun _ => 0, 3⟩

/-- Trace of the failing construction against eglCtxFail. -/
def trCtxFail : List Call :=
  [Call.GetDisplay, Call.InitDisplay 1, Call.LogInfo "initialized EGL",
   Call.ChooseConfig 1 (attribs confGles) 64,
   Call.LogInfo "eglChooseConfig returned configs",
   Call.CreateWindowSurface 1 11 3, Call.GetError,
   Call.LogError "eglCreateWindowSurface failed",
   Call.CreateWindowSurface 1 12 3,
   Call.CreateContext 1 12 0 (ctx_attribs confGles),
   Call.GetError, Call.LogError "eglCreateContext failed",
   Call.LogInfo "Destroying android GlContext",
   Call.MakeCurrent 1 0 0 0,
   Call.LogDebug "eglDestroySurface", Call.DestroySurface 1 6,
   Call.LogDebug "eglTerminate", Call.Terminate 1]

/-- Witness for C2 on a concrete failing construction (context creation
fails): the surface that had been bound is not left live, and the trace ends
with the unbind, destroy-surface, terminate teardown. -/
theorem drop_teardown_fixed_order_witness :
    liveSurfaces eglCtxFail trCtxFail = [] ∧ liveContexts eglCtxFail trCtxFail = []
    ∧ (GlError.CreationFailed = GlError.CreationFailed →
        eglCtxFail.GetDisplay ≠ EGL_NO_DISPLAY →
        ∃ ds, teardownCalls trCtxFail =
          [Call.MakeCurrent eglCtxFail.GetDisplay EGL_NO_SURFACE EGL_NO_SURFACE EGL_NO_CONTEXT]
          ++ ds ++ [Call.Terminate eglCtxFail.GetDisplay]
          ∧ (ds = [] ∨ ∃ s, s ≠ EGL_NO_SURFACE
              ∧ ds = [Call.DestroySurface eglCtxFail.GetDisplay s])) :=
  (drop_teardown_fixed_order eglCtxFail).2 (RawWindowHandle.AndroidNdk 3) confGles
    GlError.CreationFailed trCtxFail rfl
